import Mathlib

/-!
Verification of the grant-application client form
(src/src/components/GrantApplicationForm.tsx) against its specification.

The component is shallowly embedded: React state is a record `FormState`,
external collaborators (identity service, storage service, table service)
are oracle inputs supplied in environment records, and each event handler
becomes a pure function from state and environment to a new state plus the
list of collaborator calls it made.  JS numbers are modelled as `Int`
(the properties at stake are order comparisons), file sizes as `Nat`.
-/

namespace GrantForm

/-- The three upload slots of the form (the `fileType` strings passed
to `handleFileUpload` by the three file inputs). -/
inductive Slot where
  | business_plan
  | financial_statements
  | supporting_documents
deriving DecidableEq, Repr

/-- The `fileType` string each slot stands for. -/
def Slot.fieldName : Slot → String
  | .business_plan => "business_plan"
  | .financial_statements => "financial_statements"
  | .supporting_documents => "supporting_documents"

/-- The parts of a browser `File` object the component reads:
`file.name` and `file.size` (bytes). -/
structure FileHandle where
  name : String
  size : Nat
deriving DecidableEq, Repr

/-- The `GrantApplication` interface from src/src/types/index.ts.
Optional TS fields become `Option`. -/
structure GrantApplication where
  id : Option String := none
  company_name : String
  contact_email : String
  contact_phone : String
  contact_person : String
  grant_amount : Int
  project_description : String
  business_plan_url : Option String := none
  financial_statements_url : Option String := none
  supporting_documents_url : Option String := none
  status : Option String := none
  user_id : Option String := none
  created_at : Option String := none
deriving DecidableEq, Repr

/-- The `FileUploadState` interface: one optional `File` per slot. -/
structure FileUploadState where
  business_plan : Option FileHandle := none
  financial_statements : Option FileHandle := none
  supporting_documents : Option FileHandle := none
deriving DecidableEq, Repr

/-- Read the file handle recorded for a slot. -/
def FileUploadState.get (u : FileUploadState) : Slot → Option FileHandle
  | .business_plan => u.business_plan
  | .financial_statements => u.financial_statements
  | .supporting_documents => u.supporting_documents

/-- Write the file handle recorded for a slot
(the `setUploadedFiles((prev) => ({...prev, [fileType]: file}))` update). -/
def FileUploadState.set (u : FileUploadState) : Slot → Option FileHandle → FileUploadState
  | .business_plan, v => { u with business_plan := v }
  | .financial_statements, v => { u with financial_statements := v }
  | .supporting_documents, v => { u with supporting_documents := v }

/-- The `UploadProgress` map; only the three slot keys are ever used,
so it is modelled as one boolean per slot. -/
structure UploadProgress where
  business_plan : Bool := false
  financial_statements : Bool := false
  supporting_documents : Bool := false
deriving DecidableEq, Repr

/-- Write one slot's in-progress flag
(the `setUploadProgress((prev) => ({...prev, [fileType]: b}))` update). -/
def UploadProgress.set (p : UploadProgress) : Slot → Bool → UploadProgress
  | .business_plan, b => { p with business_plan := b }
  | .financial_statements, b => { p with financial_statements := b }
  | .supporting_documents, b => { p with supporting_documents := b }

/-- Read the draft field `{slot}_url`. -/
def GrantApplication.slotUrl (g : GrantApplication) : Slot → Option String
  | .business_plan => g.business_plan_url
  | .financial_statements => g.financial_statements_url
  | .supporting_documents => g.supporting_documents_url

/-- Write the draft field `{slot}_url`
(the `setFormData((prev) => ({...prev, [fileType + "_url"]: url}))` update). -/
def GrantApplication.setSlotUrl (g : GrantApplication) : Slot → Option String → GrantApplication
  | .business_plan, v => { g with business_plan_url := v }
  | .financial_statements, v => { g with financial_statements_url := v }
  | .supporting_documents, v => { g with supporting_documents_url := v }

/-- The component's whole React state: `formData`, `uploadedFiles`,
`isSubmitting`, `uploadProgress`, `submitMessage`. -/
structure FormState where
  formData : GrantApplication
  uploadedFiles : FileUploadState
  isSubmitting : Bool
  uploadProgress : UploadProgress
  submitMessage : String
deriving DecidableEq, Repr

/-- The initial `useState` value of `formData` (lines 21-28). -/
def initialFormData : GrantApplication where
  company_name := ""
  contact_email := ""
  contact_phone := ""
  contact_person := ""
  grant_amount := 1000
  project_description := ""

/-- The component's state right after mounting. -/
def initialState : FormState where
  formData := initialFormData
  uploadedFiles := {}
  isSubmitting := false
  uploadProgress := {}
  submitMessage := ""

/-- The authenticated user as returned by `supabase.auth.getUser()`;
only `user.id` is read. -/
structure UserInfo where
  id : String
deriving DecidableEq, Repr

/-! ### The email regex `/^[^\s@]+@[^\s@]+\.[^\s@]+$/` -/

/-- JS regex `\s` whitespace (the ASCII part; the Unicode space
characters also matched by `\s` never occur in the strings these
theorems evaluate). -/
def isJsWhitespace (c : Char) : Bool :=
  c == ' ' || c == '\t' || c == '\n' || c == '\r' || c == '\x0b' || c == '\x0c'

/-- A character matched by the regex class `[^\s@]`. -/
def isEmailChar (c : Char) : Bool :=
  !(isJsWhitespace c) && c != '@'

/-- One candidate decomposition of the subject: `@` at index `i`,
the literal `.` at index `j`, and the three `[^\s@]+` groups nonempty. -/
def emailSplitOk (cs : List Char) (i j : Nat) : Bool :=
  decide (1 ≤ i) && decide (i + 1 < j) && decide (j + 1 < cs.length) &&
  (cs.getD i ' ' == '@') && (cs.getD j ' ' == '.') &&
  (cs.take i).all isEmailChar &&
  ((cs.drop (i + 1)).take (j - (i + 1))).all isEmailChar &&
  (cs.drop (j + 1)).all isEmailChar

/-- `emailRegex.test(s)` for `^[^\s@]+@[^\s@]+\.[^\s@]+$` (line 151):
the subject matches iff some decomposition works. -/
def emailTest (s : String) : Bool :=
  let cs := s.toList
  (List.range cs.length).any fun i =>
    (List.range cs.length).any fun j => emailSplitOk cs i j

/-! ### handleSubmit's validation conditions -/

/-- The required-field check of lines 137-144:
any of the five text fields falsy (empty) or `grant_amount <= 0`. -/
def requiredFieldsMissing (f : GrantApplication) : Bool :=
  f.company_name == "" || f.contact_email == "" || f.contact_person == "" ||
  f.contact_phone == "" || f.project_description == "" ||
  decide (f.grant_amount ≤ 0)

/-- The grant-amount bound check of line 159:
`grant_amount < 1000 || grant_amount > 1000000`. -/
def amountOutOfRange (a : Int) : Bool :=
  decide (a < 1000) || decide (a > 1000000)

/-- The required-documents check of lines 166-170:
any of the three `uploadedFiles` slots unset. -/
def documentsMissing (u : FileUploadState) : Bool :=
  u.business_plan.isNone || u.financial_statements.isNone ||
  u.supporting_documents.isNone

/-! ### handleFileUpload -/

/-- `file.name.split(".").pop()` (line 82): JS `split` never returns an
empty array, so `pop` is the last piece. -/
def fileExtensionOf (name : String) : String :=
  (name.splitOn ".").getLastD ""

/-- The collaborator responses one `handleFileUpload` run consumes:
the `getUser()` outcome (`none` models `userError || !user`), the
`crypto.randomUUID()` value, the storage `upload` outcome (`ok` carries
`data.path`, `error` carries `error.message`), and `getPublicUrl`. -/
structure UploadEnv where
  user : Option UserInfo
  uuid : String
  uploadResult : Except String String
  publicUrl : String → String

/-- What one `handleFileUpload` run produced: the next state and the
storage `upload` calls made, each recorded as (path, file). -/
structure UploadResult where
  state : FormState
  storageCalls : List (String × FileHandle)

/-- `handleFileUpload` (lines 52-128).  `file` is `e.target.files?.[0]`.
The `finally` block clears the slot's progress flag on every path that
set it. -/
def handleFileUpload (st : FormState) (file : Option FileHandle)
    (fileType : Slot) (env : UploadEnv) : UploadResult :=
  match file with
  | none => ⟨st, []⟩
  | some f =>
    if f.size > 10 * 1024 * 1024 then
      ⟨{ st with submitMessage := "File size must be less than 10MB" }, []⟩
    else
      let st1 := { st with uploadProgress := st.uploadProgress.set fileType true }
      match env.user with
      | none =>
        ⟨{ st1 with
            submitMessage := "Please log in to upload files",
            uploadProgress := st1.uploadProgress.set fileType false }, []⟩
      | some user =>
        let fileExtension := fileExtensionOf f.name
        let uniqueFileName := env.uuid ++ "." ++ fileExtension
        let filePath := user.id ++ "/" ++ uniqueFileName
        match env.uploadResult with
        | .error e =>
          ⟨{ st1 with
              submitMessage :=
                "Error uploading " ++ (fileType.fieldName.replace "_" " ") ++
                ": " ++ e,
              uploadProgress := st1.uploadProgress.set fileType false },
            [(filePath, f)]⟩
        | .ok dataPath =>
          ⟨{ st1 with
              formData := st1.formData.setSlotUrl fileType (some (env.publicUrl dataPath)),
              uploadedFiles := st1.uploadedFiles.set fileType (some f),
              uploadProgress := st1.uploadProgress.set fileType false },
            [(filePath, f)]⟩

/-! ### handleSubmit -/

/-- The stored record returned by `.insert(...).select().single()`;
only `data.id` is read by the component. -/
structure InsertedRow where
  id : String
deriving DecidableEq, Repr

/-- The collaborator responses one `handleSubmit` run consumes:
the `getUser()` outcome and the table-insert outcome. -/
structure SubmitEnv where
  user : Option UserInfo
  insertResult : Except String InsertedRow
deriving Repr

/-- What one `handleSubmit` run produced: the next state, the records
passed to table `insert` calls, and whether the success `setTimeout`
reset was scheduled. -/
structure SubmitResult where
  state : FormState
  insertCalls : List GrantApplication
  resetScheduled : Bool
deriving DecidableEq, Repr

/-- `handleSubmit` (lines 131-239).  Each early return keeps `formData`
and `uploadedFiles` untouched; the `finally` block leaves
`isSubmitting = false` on every path. -/
def handleSubmit (st0 : FormState) (env : SubmitEnv) : SubmitResult :=
  let st := { st0 with isSubmitting := true, submitMessage := "" }
  if requiredFieldsMissing st.formData then
    ⟨{ st with submitMessage := "Please fill in all required fields", isSubmitting := false }, [], false⟩
  else if !emailTest st.formData.contact_email then
    ⟨{ st with submitMessage := "Please enter a valid email address", isSubmitting := false }, [], false⟩
  else if amountOutOfRange st.formData.grant_amount then
    ⟨{ st with submitMessage := "Grant amount must be between $1,000 and $1,000,000", isSubmitting := false }, [], false⟩
  else if documentsMissing st.uploadedFiles then
    ⟨{ st with submitMessage := "Please upload all required documents: Business Plan, Financial Statements, and Supporting Documents.", isSubmitting := false }, [], false⟩
  else
    match env.user with
    | none =>
      ⟨{ st with submitMessage := "Please log in to submit your application", isSubmitting := false }, [], false⟩
    | some user =>
      let applicationData :=
        { st.formData with user_id := some user.id, status := some "pending" }
      match env.insertResult with
      | .error e =>
        ⟨{ st with submitMessage := "Error submitting application: " ++ e, isSubmitting := false }, [applicationData], false⟩
      | .ok row =>
        ⟨{ st with submitMessage := "Application submitted successfully! Application ID: " ++ row.id ++ ".", isSubmitting := false }, [applicationData], true⟩

/-- The draft the success `setTimeout` callback installs (lines 219-226):
a whole-object replacement, so the url/status/identity fields are absent. -/
def clearedFormData : GrantApplication where
  company_name := ""
  contact_email := ""
  contact_phone := ""
  contact_person := ""
  grant_amount := 0
  project_description := ""

/-- The success `setTimeout` callback (lines 218-229): reset the draft,
clear the uploaded files and the message. -/
def timeoutReset (st : FormState) : FormState :=
  { st with
    formData := clearedFormData
    uploadedFiles := {}
    submitMessage := "" }

/-! ### handleInputChange -/

/-- A change event from one of the six form inputs; the `grant_amount`
input has `type="number"`, so its event carries the stored
`parseFloat(value) || 0` result. -/
inductive InputEvent where
  | company_name (value : String)
  | contact_email (value : String)
  | contact_phone (value : String)
  | contact_person (value : String)
  | grant_amount (value : Int)
  | project_description (value : String)

/-- `handleInputChange` (lines 39-49): update the named draft field. -/
def handleInputChange (st : FormState) (e : InputEvent) : FormState :=
  { st with formData :=
    match e with
    | .company_name v => { st.formData with company_name := v }
    | .contact_email v => { st.formData with contact_email := v }
    | .contact_phone v => { st.formData with contact_phone := v }
    | .contact_person v => { st.formData with contact_person := v }
    | .grant_amount v => { st.formData with grant_amount := v }
    | .project_description v => { st.formData with project_description := v } }

/-- The client states reachable from mounting by any interleaving of the
component's event handlers and the success-reset timeout. -/
inductive Reachable : FormState → Prop where
  | init : Reachable initialState
  | input (st : FormState) (e : InputEvent) :
      Reachable st → Reachable (handleInputChange st e)
  | upload (st : FormState) (file : Option FileHandle) (slot : Slot) (env : UploadEnv) :
      Reachable st → Reachable (handleFileUpload st file slot env).state
  | submit (st : FormState) (env : SubmitEnv) :
      Reachable st → Reachable (handleSubmit st env).state
  | reset (st : FormState) :
      Reachable st → Reachable (timeoutReset st)

/-! ### Small laws about the slot accessors -/

theorem FileUploadState.get_set (u : FileUploadState) (s : Slot) (v : Option FileHandle)
    (t : Slot) : (u.set s v).get t = if t = s then v else u.get t := by
  cases s <;> cases t <;> simp [FileUploadState.set, FileUploadState.get]

theorem GrantApplication.slotUrl_setSlotUrl (g : GrantApplication) (s : Slot)
    (v : Option String) (t : Slot) :
    (g.setSlotUrl s v).slotUrl t = if t = s then v else g.slotUrl t := by
  cases s <;> cases t <;> simp [GrantApplication.setSlotUrl, GrantApplication.slotUrl]

theorem GrantApplication.setSlotUrl_status (g : GrantApplication) (s : Slot)
    (v : Option String) : (g.setSlotUrl s v).status = g.status := by
  cases s <;> rfl

theorem GrantApplication.setSlotUrl_user_id (g : GrantApplication) (s : Slot)
    (v : Option String) : (g.setSlotUrl s v).user_id = g.user_id := by
  cases s <;> rfl

/-! ### Frame lemmas for the handlers -/

/-- `handleSubmit` never writes the draft or the uploaded-file slots:
only the timeout callback it may schedule does. -/
theorem handleSubmit_frame (st : FormState) (env : SubmitEnv) :
    (handleSubmit st env).state.formData = st.formData ∧
    (handleSubmit st env).state.uploadedFiles = st.uploadedFiles := by
  constructor <;>
    (unfold handleSubmit
     simp only []
     split_ifs <;> try rfl
     all_goals
       cases env.user with
       | none => rfl
       | some u => cases env.insertResult <;> rfl)

/-- `handleInputChange` never touches `uploadedFiles`. -/
theorem handleInputChange_uploadedFiles (st : FormState) (e : InputEvent) :
    (handleInputChange st e).uploadedFiles = st.uploadedFiles := rfl

/-- `handleInputChange` writes none of the url/status/identity fields. -/
theorem handleInputChange_formData_frame (st : FormState) (e : InputEvent) (s : Slot) :
    (handleInputChange st e).formData.slotUrl s = st.formData.slotUrl s ∧
    (handleInputChange st e).formData.status = st.formData.status ∧
    (handleInputChange st e).formData.user_id = st.formData.user_id := by
  cases e <;> cases s <;> exact ⟨rfl, rfl, rfl⟩

/-- `handleFileUpload` never writes `status` or `user_id` into the draft. -/
theorem handleFileUpload_status_user_id (st : FormState) (file : Option FileHandle)
    (slot : Slot) (env : UploadEnv) :
    (handleFileUpload st file slot env).state.formData.status = st.formData.status ∧
    (handleFileUpload st file slot env).state.formData.user_id = st.formData.user_id := by
  unfold handleFileUpload
  cases file with
  | none => exact ⟨rfl, rfl⟩
  | some f =>
    dsimp only
    split
    · exact ⟨rfl, rfl⟩
    · cases env.user with
      | none => exact ⟨rfl, rfl⟩
      | some user =>
        dsimp only
        cases env.uploadResult with
        | error e => exact ⟨rfl, rfl⟩
        | ok p =>
          exact ⟨GrantApplication.setSlotUrl_status .., GrantApplication.setSlotUrl_user_id ..⟩

/-- For each slot, one `handleFileUpload` run either leaves the slot's
file handle and url field as they were, or sets both at once. -/
theorem handleFileUpload_slot_cases (st : FormState) (file : Option FileHandle)
    (slot : Slot) (env : UploadEnv) (s : Slot) :
    ((handleFileUpload st file slot env).state.uploadedFiles.get s = st.uploadedFiles.get s ∧
     (handleFileUpload st file slot env).state.formData.slotUrl s = st.formData.slotUrl s) ∨
    (((handleFileUpload st file slot env).state.uploadedFiles.get s).isSome = true ∧
     ((handleFileUpload st file slot env).state.formData.slotUrl s).isSome = true) := by
  unfold handleFileUpload
  cases file with
  | none => exact .inl ⟨rfl, rfl⟩
  | some f =>
    dsimp only
    split
    · exact .inl ⟨rfl, rfl⟩
    · cases env.user with
      | none => exact .inl ⟨rfl, rfl⟩
      | some user =>
        dsimp only
        cases env.uploadResult with
        | error e => exact .inl ⟨rfl, rfl⟩
        | ok p =>
          by_cases hs : s = slot
          · subst hs
            refine .inr ⟨?_, ?_⟩
            · simp [FileUploadState.get_set]
            · simp [GrantApplication.slotUrl_setSlotUrl]
          · refine .inl ⟨?_, ?_⟩
            · simp [FileUploadState.get_set, hs]
            · simp [GrantApplication.slotUrl_setSlotUrl, hs]

/-! ### Facts about the email matcher -/

/-- Any accepted subject has an `@` strictly before a `.`,
both inside the string. -/
theorem emailTest_at_dot (s : String) (h : emailTest s = true) :
    ∃ i j, i < j ∧ j < s.toList.length ∧
      s.toList.getD i ' ' = '@' ∧ s.toList.getD j ' ' = '.' := by
  unfold emailTest at h
  simp only [List.any_eq_true, List.mem_range] at h
  obtain ⟨i, hi, j, hj, hok⟩ := h
  unfold emailSplitOk at hok
  simp only [Bool.and_eq_true, decide_eq_true_eq, beq_iff_eq] at hok
  obtain ⟨⟨⟨⟨⟨⟨⟨h1, h2⟩, h3⟩, h4⟩, h5⟩, _⟩, _⟩, _⟩ := hok
  exact ⟨i, j, by omega, by omega, h4, h5⟩

/-- Any accepted subject contains an `@`. -/
theorem emailTest_has_at (s : String) (h : emailTest s = true) : '@' ∈ s.toList := by
  obtain ⟨i, j, hij, hj, hat, _⟩ := emailTest_at_dot s h
  have hi : i < s.toList.length := by omega
  have : s.toList.getD i ' ' = s.toList[i] := List.getD_eq_getElem s.toList ' ' hi
  rw [this] at hat
  exact hat ▸ List.getElem_mem hi

/-! ### Concrete fixtures used by the witness theorems -/

/-- A concrete draft that passes every validation rule, with all three
upload slots completed. -/
def demoState : FormState where
  formData := {
    company_name := "Acme"
    contact_email := "a@b.co"
    contact_phone := "555"
    contact_person := "Pat"
    grant_amount := 50000
    project_description := "Expand" }
  uploadedFiles := {
    business_plan := some ⟨"bp.pdf", 100⟩
    financial_statements := some ⟨"fs.pdf", 100⟩
    supporting_documents := some ⟨"sd.pdf", 100⟩ }
  isSubmitting := false
  uploadProgress := {}
  submitMessage := ""

/-- The demo draft with an out-of-range grant amount. -/
def demoLowState : FormState :=
  { demoState with formData := { demoState.formData with grant_amount := 100 } }

/-- The demo draft with a malformed contact email. -/
def demoBadEmailState : FormState :=
  { demoState with formData := { demoState.formData with contact_email := "invalid" } }

/-- A concrete upload environment with an authenticated user and a
successful storage write. -/
def demoUploadEnv : UploadEnv where
  user := some ⟨"user-1"⟩
  uuid := "uuid-1"
  uploadResult := .ok "p1"
  publicUrl := fun _ => "http://files/p1"

/-! ### The claims -/

/-- C1: for every draft that passes all validation rules, with all three
upload slots completed and an active session, one `handleSubmit` run makes
exactly one insert call, and the inserted record carries status "pending"
and the session's identity as `user_id`. -/
theorem submit_valid_one_pending_insert (st : FormState) (env : SubmitEnv) (u : UserInfo)
    (hreq : requiredFieldsMissing st.formData = false)
    (hemail : emailTest st.formData.contact_email = true)
    (hamount : amountOutOfRange st.formData.grant_amount = false)
    (hdocs : documentsMissing st.uploadedFiles = false)
    (huser : env.user = some u) :
    (handleSubmit st env).insertCalls =
      [{ st.formData with user_id := some u.id, status := some "pending" }] := by
  cases henv : env.insertResult with
  | error e => simp [handleSubmit, hreq, hemail, hamount, hdocs, huser, henv]
  | ok row => simp [handleSubmit, hreq, hemail, hamount, hdocs, huser, henv]

theorem submit_valid_one_pending_insert_witness :
    (handleSubmit demoState ⟨some ⟨"user-1"⟩, .ok ⟨"app-7"⟩⟩).insertCalls =
      [{ demoState.formData with user_id := some "user-1", status := some "pending" }] :=
  submit_valid_one_pending_insert demoState ⟨some ⟨"user-1"⟩, .ok ⟨"app-7"⟩⟩ ⟨"user-1"⟩
    (by decide) (by decide) (by decide) (by decide) rfl

/-- C2: for every draft with one of the five required text/number fields
empty or a non-positive grant amount, `handleSubmit` reports the
required-fields reason and never calls the table insert interface. -/
theorem submit_missing_required_rejects (st : FormState) (env : SubmitEnv)
    (h : st.formData.company_name = "" ∨ st.formData.contact_email = "" ∨
         st.formData.contact_phone = "" ∨ st.formData.contact_person = "" ∨
         st.formData.project_description = "" ∨ st.formData.grant_amount ≤ 0) :
    (handleSubmit st env).state.submitMessage = "Please fill in all required fields" ∧
    (handleSubmit st env).insertCalls = [] := by
  have hreq : requiredFieldsMissing st.formData = true := by
    unfold requiredFieldsMissing
    simp only [Bool.or_eq_true, beq_iff_eq, decide_eq_true_eq]
    tauto
  constructor <;> simp [handleSubmit, hreq]

theorem submit_missing_required_rejects_witness :
    (handleSubmit initialState ⟨none, .error "boom"⟩).state.submitMessage =
      "Please fill in all required fields" ∧
    (handleSubmit initialState ⟨none, .error "boom"⟩).insertCalls = [] :=
  submit_missing_required_rejects initialState ⟨none, .error "boom"⟩ (.inl rfl)

/-- C3: a file selection over 10 MiB never reaches the storage interface
and the only state change is the rejection message: the slot's file
handle, the draft and the progress flags are untouched. -/
theorem upload_oversize_rejected (st : FormState) (f : FileHandle) (slot : Slot)
    (env : UploadEnv) (hsize : f.size > 10 * 1024 * 1024) :
    (handleFileUpload st (some f) slot env).storageCalls = [] ∧
    (handleFileUpload st (some f) slot env).state =
      { st with submitMessage := "File size must be less than 10MB" } := by
  constructor <;> simp [handleFileUpload, hsize]

theorem upload_oversize_rejected_witness :
    (handleFileUpload initialState (some ⟨"big.pdf", 10485761⟩) Slot.business_plan
        ⟨none, "uuid-0", .error "never", fun _ => ""⟩).storageCalls = [] ∧
    (handleFileUpload initialState (some ⟨"big.pdf", 10485761⟩) Slot.business_plan
        ⟨none, "uuid-0", .error "never", fun _ => ""⟩).state =
      { initialState with submitMessage := "File size must be less than 10MB" } :=
  upload_oversize_rejected initialState ⟨"big.pdf", 10485761⟩ Slot.business_plan
    ⟨none, "uuid-0", .error "never", fun _ => ""⟩ (by decide)

/-- C4: an accepted upload with an active session submits the file once,
under the generated unique name scoped under the user's identity, and
either the storage write succeeds and the slot's url field and file
handle are both set, or it fails and neither is written and the
collaborator's error message is surfaced. -/
theorem upload_accepted_outcomes (st : FormState) (f : FileHandle) (slot : Slot)
    (env : UploadEnv) (u : UserInfo)
    (hsize : ¬ f.size > 10 * 1024 * 1024)
    (huser : env.user = some u) :
    (handleFileUpload st (some f) slot env).storageCalls =
      [(u.id ++ "/" ++ (env.uuid ++ "." ++ fileExtensionOf f.name), f)] ∧
    ((∃ p, env.uploadResult = .ok p ∧
        (handleFileUpload st (some f) slot env).state.formData.slotUrl slot =
          some (env.publicUrl p) ∧
        (handleFileUpload st (some f) slot env).state.uploadedFiles.get slot = some f) ∨
     (∃ e, env.uploadResult = .error e ∧
        (handleFileUpload st (some f) slot env).state.formData = st.formData ∧
        (handleFileUpload st (some f) slot env).state.uploadedFiles = st.uploadedFiles ∧
        (handleFileUpload st (some f) slot env).state.submitMessage =
          "Error uploading " ++ (Slot.fieldName slot).replace "_" " " ++ ": " ++ e)) := by
  cases hres : env.uploadResult with
  | error e =>
    refine ⟨?_, .inr ⟨e, rfl, ?_, ?_, ?_⟩⟩ <;>
      simp [handleFileUpload, hsize, huser, hres]
  | ok p =>
    refine ⟨?_, .inl ⟨p, rfl, ?_, ?_⟩⟩ <;>
      simp [handleFileUpload, hsize, huser, hres, FileUploadState.get_set,
        GrantApplication.slotUrl_setSlotUrl]

theorem upload_accepted_outcomes_witness :
    (handleFileUpload initialState (some ⟨"doc.pdf", 5⟩) Slot.business_plan
        demoUploadEnv).storageCalls =
      [("user-1" ++ "/" ++ ("uuid-1" ++ "." ++ fileExtensionOf "doc.pdf"), ⟨"doc.pdf", 5⟩)] ∧
    ((∃ p, demoUploadEnv.uploadResult = .ok p ∧
        (handleFileUpload initialState (some ⟨"doc.pdf", 5⟩) Slot.business_plan
            demoUploadEnv).state.formData.slotUrl Slot.business_plan =
          some (demoUploadEnv.publicUrl p) ∧
        (handleFileUpload initialState (some ⟨"doc.pdf", 5⟩) Slot.business_plan
            demoUploadEnv).state.uploadedFiles.get Slot.business_plan = some ⟨"doc.pdf", 5⟩) ∨
     (∃ e, demoUploadEnv.uploadResult = .error e ∧
        (handleFileUpload initialState (some ⟨"doc.pdf", 5⟩) Slot.business_plan
            demoUploadEnv).state.formData = initialState.formData ∧
        (handleFileUpload initialState (some ⟨"doc.pdf", 5⟩) Slot.business_plan
            demoUploadEnv).state.uploadedFiles = initialState.uploadedFiles ∧
        (handleFileUpload initialState (some ⟨"doc.pdf", 5⟩) Slot.business_plan
            demoUploadEnv).state.submitMessage =
          "Error uploading " ++ (Slot.fieldName Slot.business_plan).replace "_" " " ++ ": " ++ e)) :=
  upload_accepted_outcomes initialState ⟨"doc.pdf", 5⟩ Slot.business_plan
    demoUploadEnv ⟨"user-1"⟩ (by decide) rfl

/-- C5: for every draft with non-empty required fields and a well-formed
email, validation fails whenever the grant amount is outside
[1000, 1000000] (no insert happens and an invalid reason is shown), and
both boundary values pass the bound rule itself. -/
theorem submit_amount_bounds (st : FormState) (env : SubmitEnv)
    (hfields : st.formData.company_name ≠ "" ∧ st.formData.contact_email ≠ "" ∧
      st.formData.contact_phone ≠ "" ∧ st.formData.contact_person ≠ "" ∧
      st.formData.project_description ≠ "")
    (hemail : emailTest st.formData.contact_email = true)
    (hout : st.formData.grant_amount < 1000 ∨ st.formData.grant_amount > 1000000) :
    ((handleSubmit st env).insertCalls = [] ∧
     ((handleSubmit st env).state.submitMessage = "Please fill in all required fields" ∨
      (handleSubmit st env).state.submitMessage =
        "Grant amount must be between $1,000 and $1,000,000")) ∧
    amountOutOfRange 1000 = false ∧ amountOutOfRange 1000000 = false := by
  refine ⟨?_, by decide, by decide⟩
  obtain ⟨h1, h2, h3, h4, h5⟩ := hfields
  by_cases hpos : st.formData.grant_amount ≤ 0
  · have hreq : requiredFieldsMissing st.formData = true := by
      unfold requiredFieldsMissing
      simp [hpos]
    constructor
    · simp [handleSubmit, hreq]
    · left
      simp [handleSubmit, hreq]
  · have hreq : requiredFieldsMissing st.formData = false := by
      unfold requiredFieldsMissing
      simp [h1, h2, h3, h4, h5, hpos]
    have hamt : amountOutOfRange st.formData.grant_amount = true := by
      unfold amountOutOfRange
      rcases hout with h | h
      · simp [h]
      · simp [h]
    constructor
    · simp [handleSubmit, hreq, hemail, hamt]
    · right
      simp [handleSubmit, hreq, hemail, hamt]

theorem submit_amount_bounds_witness :
    ((handleSubmit demoLowState ⟨none, .error "boom"⟩).insertCalls = [] ∧
     ((handleSubmit demoLowState ⟨none, .error "boom"⟩).state.submitMessage =
        "Please fill in all required fields" ∨
      (handleSubmit demoLowState ⟨none, .error "boom"⟩).state.submitMessage =
        "Grant amount must be between $1,000 and $1,000,000")) ∧
    amountOutOfRange 1000 = false ∧ amountOutOfRange 1000000 = false :=
  submit_amount_bounds demoLowState ⟨none, .error "boom"⟩
    (by refine ⟨?_, ?_, ?_, ?_, ?_⟩ <;> decide) (by decide) (.inl (by decide))

/-- C6: for every reachable email check (the required-field rule passed),
a contact email with no `@`, or with no `.` after an `@`, fails
validation with the email-specific reason and no insert happens; the
email "a@b.co" passes the matcher. -/
theorem submit_malformed_email_rejects (st : FormState) (env : SubmitEnv)
    (hreq : requiredFieldsMissing st.formData = false)
    (hmal : (∀ c ∈ st.formData.contact_email.toList, c ≠ '@') ∨
            (∀ i j, i < j → j < st.formData.contact_email.toList.length →
              st.formData.contact_email.toList.getD i ' ' = '@' →
              st.formData.contact_email.toList.getD j ' ' ≠ '.')) :
    ((handleSubmit st env).state.submitMessage = "Please enter a valid email address" ∧
     (handleSubmit st env).insertCalls = []) ∧
    emailTest "a@b.co" = true := by
  refine ⟨?_, by decide⟩
  have hfail : emailTest st.formData.contact_email = false := by
    cases hb : emailTest st.formData.contact_email
    · rfl
    · exfalso
      obtain ⟨i, j, hij, hj, hat, hdot⟩ := emailTest_at_dot _ hb
      rcases hmal with hno | hnd
      · exact hno '@' (emailTest_has_at _ hb) rfl
      · exact hnd i j hij hj hat hdot
  constructor <;> simp [handleSubmit, hreq, hfail]

theorem submit_malformed_email_rejects_witness :
    ((handleSubmit demoBadEmailState ⟨none, .error "boom"⟩).state.submitMessage =
        "Please enter a valid email address" ∧
     (handleSubmit demoBadEmailState ⟨none, .error "boom"⟩).insertCalls = []) ∧
    emailTest "a@b.co" = true :=
  submit_malformed_email_rejects demoBadEmailState ⟨none, .error "boom"⟩
    (by decide) (.inl (by decide))

/-- C7: when the table insert fails, `handleSubmit` shows the
collaborator's error message and leaves the draft and every upload slot
unchanged, so the user can retry. -/
theorem submit_insert_failure_preserves_draft (st : FormState) (env : SubmitEnv)
    (u : UserInfo) (e : String)
    (hreq : requiredFieldsMissing st.formData = false)
    (hemail : emailTest st.formData.contact_email = true)
    (hamount : amountOutOfRange st.formData.grant_amount = false)
    (hdocs : documentsMissing st.uploadedFiles = false)
    (huser : env.user = some u)
    (hfail : env.insertResult = .error e) :
    (handleSubmit st env).state.formData = st.formData ∧
    (handleSubmit st env).state.uploadedFiles = st.uploadedFiles ∧
    (handleSubmit st env).state.submitMessage = "Error submitting application: " ++ e := by
  refine ⟨?_, ?_, ?_⟩ <;> simp [handleSubmit, hreq, hemail, hamount, hdocs, huser, hfail]

theorem submit_insert_failure_preserves_draft_witness :
    (handleSubmit demoState ⟨some ⟨"user-1"⟩, .error "db down"⟩).state.formData =
      demoState.formData ∧
    (handleSubmit demoState ⟨some ⟨"user-1"⟩, .error "db down"⟩).state.uploadedFiles =
      demoState.uploadedFiles ∧
    (handleSubmit demoState ⟨some ⟨"user-1"⟩, .error "db down"⟩).state.submitMessage =
      "Error submitting application: " ++ "db down" :=
  submit_insert_failure_preserves_draft demoState ⟨some ⟨"user-1"⟩, .error "db down"⟩
    ⟨"user-1"⟩ "db down" (by decide) (by decide) (by decide) (by decide) rfl rfl

/-- C8: after a successful insert the confirmation message contains the
identifier assigned by the table service, the display-delay reset is
scheduled, and firing it resets the draft fields and all three upload
slots to empty. -/
theorem submit_success_confirms_and_resets (st : FormState) (env : SubmitEnv)
    (u : UserInfo) (row : InsertedRow)
    (hreq : requiredFieldsMissing st.formData = false)
    (hemail : emailTest st.formData.contact_email = true)
    (hamount : amountOutOfRange st.formData.grant_amount = false)
    (hdocs : documentsMissing st.uploadedFiles = false)
    (huser : env.user = some u)
    (hok : env.insertResult = .ok row) :
    (handleSubmit st env).state.submitMessage =
      "Application submitted successfully! Application ID: " ++ row.id ++ "." ∧
    (handleSubmit st env).resetScheduled = true ∧
    (timeoutReset (handleSubmit st env).state).formData = clearedFormData ∧
    (timeoutReset (handleSubmit st env).state).uploadedFiles = {} ∧
    clearedFormData.company_name = "" ∧ clearedFormData.contact_email = "" ∧
    clearedFormData.contact_phone = "" ∧ clearedFormData.contact_person = "" ∧
    clearedFormData.project_description = "" ∧ clearedFormData.grant_amount = 0 ∧
    clearedFormData.business_plan_url = none ∧
    clearedFormData.financial_statements_url = none ∧
    clearedFormData.supporting_documents_url = none := by
  refine ⟨?_, ?_, rfl, rfl, rfl, rfl, rfl, rfl, rfl, rfl, rfl, rfl, rfl⟩ <;>
    simp [handleSubmit, hreq, hemail, hamount, hdocs, huser, hok]

theorem submit_success_confirms_and_resets_witness :
    (handleSubmit demoState ⟨some ⟨"user-1"⟩, .ok ⟨"app-7"⟩⟩).state.submitMessage =
      "Application submitted successfully! Application ID: " ++ "app-7" ++ "." ∧
    (handleSubmit demoState ⟨some ⟨"user-1"⟩, .ok ⟨"app-7"⟩⟩).resetScheduled = true ∧
    (timeoutReset (handleSubmit demoState ⟨some ⟨"user-1"⟩, .ok ⟨"app-7"⟩⟩).state).formData =
      clearedFormData ∧
    (timeoutReset (handleSubmit demoState ⟨some ⟨"user-1"⟩, .ok ⟨"app-7"⟩⟩).state).uploadedFiles =
      {} ∧
    clearedFormData.company_name = "" ∧ clearedFormData.contact_email = "" ∧
    clearedFormData.contact_phone = "" ∧ clearedFormData.contact_person = "" ∧
    clearedFormData.project_description = "" ∧ clearedFormData.grant_amount = 0 ∧
    clearedFormData.business_plan_url = none ∧
    clearedFormData.financial_statements_url = none ∧
    clearedFormData.supporting_documents_url = none :=
  submit_success_confirms_and_resets demoState ⟨some ⟨"user-1"⟩, .ok ⟨"app-7"⟩⟩
    ⟨"user-1"⟩ ⟨"app-7"⟩ (by decide) (by decide) (by decide) (by decide) rfl rfl

/-- C9: in every reachable client state the stored draft carries neither
a status value nor an owner identity; those are attached only to the
record passed to the insert call. -/
theorem draft_never_holds_status_or_identity (st : FormState) (h : Reachable st) :
    st.formData.status = none ∧ st.formData.user_id = none := by
  induction h with
  | init => exact ⟨rfl, rfl⟩
  | input st e _ ih =>
    obtain ⟨-, h2, h3⟩ := handleInputChange_formData_frame st e Slot.business_plan
    exact ⟨h2.trans ih.1, h3.trans ih.2⟩
  | upload st file slot env _ ih =>
    obtain ⟨h1, h2⟩ := handleFileUpload_status_user_id st file slot env
    exact ⟨h1.trans ih.1, h2.trans ih.2⟩
  | submit st env _ ih =>
    have h1 := (handleSubmit_frame st env).1
    constructor
    · rw [h1]; exact ih.1
    · rw [h1]; exact ih.2
  | reset st _ _ => exact ⟨rfl, rfl⟩

theorem draft_never_holds_status_or_identity_witness :
    initialState.formData.status = none ∧ initialState.formData.user_id = none :=
  draft_never_holds_status_or_identity initialState Reachable.init

/-- C10: in every reachable client state and for every upload slot, a
file handle is recorded for the slot exactly when the draft holds the
corresponding url field: uploads set or skip both together and the
post-submission reset clears both. -/
theorem slot_handle_iff_url (st : FormState) (h : Reachable st) :
    ∀ s : Slot, (st.uploadedFiles.get s).isSome = (st.formData.slotUrl s).isSome := by
  induction h with
  | init => intro s; cases s <;> rfl
  | input st e _ ih =>
    intro s
    have h1 := handleInputChange_uploadedFiles st e
    have h2 := (handleInputChange_formData_frame st e s).1
    rw [h1, h2]
    exact ih s
  | upload st file slot env _ ih =>
    intro s
    rcases handleFileUpload_slot_cases st file slot env s with ⟨h1, h2⟩ | ⟨h1, h2⟩
    · rw [h1, h2]; exact ih s
    · rw [h1, h2]
  | submit st env _ ih =>
    intro s
    obtain ⟨h1, h2⟩ := handleSubmit_frame st env
    rw [h1, h2]
    exact ih s
  | reset st _ _ => intro s; cases s <;> rfl

theorem slot_handle_iff_url_witness :
    (initialState.uploadedFiles.get Slot.business_plan).isSome =
      (initialState.formData.slotUrl Slot.business_plan).isSome :=
  slot_handle_iff_url initialState Reachable.init Slot.business_plan

end GrantForm
